import Mathlib

set_option maxRecDepth 100000

/-!
Shallow embedding of `src/test_harness/agent.py`: an LLM-driven Verilog
testbench generation pipeline (extract module header, hypothesize bugs,
synthesize a testbench, then a compile/repair loop).

The external text-generation service is modelled as a pure function
`oracle : String → String` mapping a prompt to the response text
(`model.generate_content(prompt).candidates[0].text`).  The external
compiler invocation (`subprocess.run(["iverilog", ...], check=True)`) is
modelled as a function `compiler : String → String → String → CompileOutcome`
taking the testbench text, the mutant text and the top-level module name.
-/

namespace Agent

/-- Line-break characters recognised by Python `str.splitlines`
(`\n`, `\r`, `\v`, `\f`, `\x1c`, `\x1d`, `\x1e`, `\x85`, ` `, ` `;
`\r\n` is treated as a single break by the caller). -/
def isPyLineBreak (c : Char) : Bool :=
  c = '\n' || c = '\r' || c = Char.ofNat 0x0b || c = Char.ofNat 0x0c ||
  c = Char.ofNat 0x1c || c = Char.ofNat 0x1d || c = Char.ofNat 0x1e ||
  c = Char.ofNat 0x85 || c = Char.ofNat 0x2028 || c = Char.ofNat 0x2029

/-- Core of Python `str.splitlines` on a non-empty character list:
`acc` holds the current line (reversed); a trailing line break does not
produce a trailing empty line. -/
def pySplitCore : List Char → List Char → List (List Char)
  | [], acc => [acc.reverse]
  | '\r' :: '\n' :: rest, acc =>
      match rest with
      | [] => [acc.reverse]
      | _ => acc.reverse :: pySplitCore rest []
  | c :: rest, acc =>
      if isPyLineBreak c then
        match rest with
        | [] => [acc.reverse]
        | _ => acc.reverse :: pySplitCore rest []
      else
        pySplitCore rest (c :: acc)

/-- Python `s.splitlines()`. -/
def pySplitlines (s : String) : List String :=
  match s.data with
  | [] => []
  | cs => (pySplitCore cs []).map List.asString

/-- Python `'\n'.join(s.splitlines()[1:-1])`: drop the first and last line
of `s` and rejoin the remaining lines with newlines.  This is the envelope
stripping applied to the responses of the header-extraction, synthesis and
repair requests. -/
def envelopeStrip (s : String) : String :=
  String.intercalate "\n" (((pySplitlines s).drop 1).dropLast)

/-- The f-string prompt built by `extract_header`. -/
def extract_header_prompt (mutant0 : String) : String :=
  "You are an expert in digital hardware design. Given the following module, please return the module header.\n    "
  ++ mutant0 ++
  "\n\n    Only return the module header with the bit widths of the inputs and outputs, and don\x27t provide any additional information.\n    "

/-- The f-string prompt built by `finding_bugs`. -/
def finding_bugs_prompt (functional_desc : String) : String :=
  "\n    You are an expert in digital hardware verification. Given the following functional description of a module:\n    "
  ++ functional_desc ++
  "\n    Your task is to identify and describe possible bugs that may exist in implementations of this module.\n    Provide a thorough, specific, and concise list of bullet points of potential bugs. Focus on realistic design, logic, or \n    timing issues. Avoid unnecessary commentary or speculation beyond what\x27s relevant to potential bugs.\n    "

/-- The f-string prompt built by `creating_tb` (interpolating the functional
description, the raw bug-hypothesis text and the module header). -/
def creating_tb_prompt (functional_desc potential_bugs module_header : String) : String :=
  "\n    You are an expert in digital hardware verification. \n    You are given the functional description of a Verilog module: \n    "
  ++ functional_desc ++
  "\n    Your task is to generate a comprehensive and concise Verilog testbench that verifies the correctness of a module \n    implementing this description. The testbench should aim to detect common issues, cover edge cases, \n    and validate core functionality.\n    Additionally, consider the following potential bugs that may exist in the implementation: \n    "
  ++ potential_bugs ++
  "\n    Use this list to inform what tests to include in the testbench. \n\n    The testbench should adhere to the following requirements:\n    Your output should be only the Verilog testbench code, with no extra explanation or commentary. \n    Do not write any additional modules other than the testbench module. \n    The testbench module name is tb. \n    This is the module header of the "
  ++ module_header ++
  "\n    It outputs $display(\"TESTS PASSED\") if the Verilog module passes the testbench. \n    It calls an error if the Verilog module does not pass the testbench.\n    It calls $finish in the end.\n    "

/-- The f-string prompt built by `fix_verilog_syntax`. -/
def fix_verilog_syntax_prompt (verilog_code error_message module_header : String) : String :=
  "\n    Given the following testbench module written in Verilog code: "
  ++ verilog_code ++
  "\n    as well as the following error message for syntax "
  ++ error_message ++
  ", please rewrite the code such that\n    there are no syntax issues.\n    As before, the testbench should adhere to the following requirements:\n    Your output should be only the Verilog testbench code, with no extra explanation or commentary. \n    Do not write any additional modules other than the testbench module. \n    The testbench module name is tb. \n    This is the module header of the "
  ++ module_header ++
  "\n    It outputs $display(\"TESTS PASSED\") if the Verilog module passes the testbench. \n    It calls an error if the Verilog module does not pass the testbench.\n    It calls $finish in the end.\n    "

/-- `extract_header(model, mutant0)`: one oracle request, then
`'\n'.join(text.splitlines()[1:-1])`. -/
def extract_header (oracle : String → String) (mutant0 : String) : String :=
  envelopeStrip (oracle (extract_header_prompt mutant0))

/-- `finding_bugs(model, functional_desc)`: one oracle request; the response
text is returned raw (the source returns the response object, whose
`.candidates[0].text` is what `creating_tb` reads). -/
def finding_bugs (oracle : String → String) (functional_desc : String) : String :=
  oracle (finding_bugs_prompt functional_desc)

/-- `creating_tb(model, functional_desc, potential_bugs, module_header)`:
one oracle request, then the first/last-line strip. -/
def creating_tb (oracle : String → String)
    (functional_desc potential_bugs module_header : String) : String :=
  envelopeStrip (oracle (creating_tb_prompt functional_desc potential_bugs module_header))

/-- `fix_verilog_syntax(model, verilog_code, error_message, module_header)`:
one oracle request, then the first/last-line strip. -/
def fix_verilog_syntax (oracle : String → String)
    (verilog_code error_message module_header : String) : String :=
  envelopeStrip (oracle (fix_verilog_syntax_prompt verilog_code error_message module_header))

/-- Outcome of invoking the external compiler process: either the process
was launched and exited with `exitCode` (stderr captured), or the launch
itself failed (e.g. `iverilog` missing — in Python a `FileNotFoundError`,
which is not a `CalledProcessError` and so is not caught). -/
inductive CompileOutcome
  | launched (exitCode : Nat) (stderr : String)
  | launchFailure
  deriving DecidableEq, Repr

/-- `check_verilog_syntax(verilog_code, mutant0, top_module="tb")`:
`subprocess.run([...], check=True)` raises `CalledProcessError` exactly when
the exit code is nonzero; that exception is caught and turned into
`(False, e.stderr.decode())`, success yields `(True, "")`, and a launch
failure escapes the `try` as an uncaught exception (`Except.error ()`). -/
def check_verilog_syntax (compiler : String → String → String → CompileOutcome)
    (verilog_code mutant0 : String) (top_module : String := "tb") :
    Except Unit (Bool × String) :=
  match compiler verilog_code mutant0 top_module with
  | .launched exitCode stderr =>
      if exitCode = 0 then .ok (true, "") else .ok (false, stderr)
  | .launchFailure => .error ()

/-- Observable events of a run, in issue order: the four oracle requests
(each tagged with the call site that issued it and carrying the full prompt)
and each validation attempt (artifact, mutant, pass flag, diagnostic). -/
inductive Ev
  | oracleBugs (prompt : String)
  | oracleHeader (prompt : String)
  | oracleSynth (prompt : String)
  | oracleRepair (prompt : String)
  | validate (artifact mutant : String) (passed : Bool) (diag : String)
  deriving DecidableEq, Repr

/-- The call-site kind of an event, forgetting its payload. -/
inductive EvKind
  | bugs
  | header
  | synth
  | repair
  | validate
  deriving DecidableEq, Repr

/-- Kind of an event. -/
def Ev.kind : Ev → EvKind
  | .oracleBugs _ => .bugs
  | .oracleHeader _ => .header
  | .oracleSynth _ => .synth
  | .oracleRepair _ => .repair
  | .validate _ _ _ _ => .validate

/-- Result of a run: a returned artifact, an uncaught `KeyError` on the
input mapping, an uncaught compiler-launch exception, or fuel exhaustion
(modelling that the unbounded `while` loop has not terminated yet). -/
inductive RunResult
  | done (artifact : String)
  | keyError (key : String)
  | launchFault
  | diverged
  deriving DecidableEq, Repr

/-- The `while not isGood` loop of `generate_testbench`, with fuel: check
the current artifact; on pass return it; on fail, ask `fix_verilog_syntax`
for a replacement and loop.  Returns the result together with the trace of
events the loop produced. -/
def repair_loop (oracle : String → String)
    (compiler : String → String → String → CompileOutcome)
    (mutant0 module_header : String) : Nat → String → RunResult × List Ev
  | 0, _ => (.diverged, [])
  | fuel + 1, to_return =>
    match check_verilog_syntax compiler to_return mutant0 "tb" with
    | .error _ => (.launchFault, [])
    | .ok (isGood, error) =>
      if isGood then
        (.done to_return, [.validate to_return mutant0 true error])
      else
        let next := fix_verilog_syntax oracle to_return error module_header
        let rec_result := repair_loop oracle compiler mutant0 module_header fuel next
        (rec_result.1,
          .validate to_return mutant0 false error
          :: .oracleRepair (fix_verilog_syntax_prompt to_return error module_header)
          :: rec_result.2)

/-- `generate_testbench(file_name_to_content)`: look up
`'specification.md'`, issue the bug-hypothesis request, look up
`"mutant_0.v"`, issue the header-extraction request, issue the synthesis
request, then run the repair loop.  The input mapping is modelled as
`String → Option String`; a `none` lookup is Python's `KeyError`.  Returns
the run result together with the trace of events in issue order. -/
def generate_testbench (oracle : String → String)
    (compiler : String → String → String → CompileOutcome)
    (fuel : Nat) (file_name_to_content : String → Option String) :
    RunResult × List Ev :=
  match file_name_to_content "specification.md" with
  | none => (.keyError "specification.md", [])
  | some functional_desc =>
    let potential_bugs := finding_bugs oracle functional_desc
    match file_name_to_content "mutant_0.v" with
    | none => (.keyError "mutant_0.v", [.oracleBugs (finding_bugs_prompt functional_desc)])
    | some mutant0 =>
      let module_header := extract_header oracle mutant0
      let to_return := creating_tb oracle functional_desc potential_bugs module_header
      let loop := repair_loop oracle compiler mutant0 module_header fuel to_return
      (loop.1,
        .oracleBugs (finding_bugs_prompt functional_desc)
        :: .oracleHeader (extract_header_prompt mutant0)
        :: .oracleSynth (creating_tb_prompt functional_desc potential_bugs module_header)
        :: loop.2)

/-- `pat` occurs as a contiguous substring of `s`. -/
def ContainsStr (s pat : String) : Prop :=
  ∃ p q, s = p ++ (pat ++ q)

/-- Boolean substring test on character lists. -/
def hasSubstrList (pat : List Char) : List Char → Bool
  | [] => pat.isEmpty
  | c :: rest => pat.isPrefixOf (c :: rest) || hasSubstrList pat rest

/-- Boolean substring test on strings. -/
def hasSubstr (s pat : String) : Bool :=
  hasSubstrList pat.data s.data

/-- Invariant shape of the event list produced by the repair loop: a
(possibly truncated) alternation of validation attempts and repair
requests, where every failing validation is immediately followed by the
repair request built from exactly that artifact, that diagnostic and the
run's module header. -/
inductive LoopTrace (m h : String) : List Ev → Prop
  | nil : LoopTrace m h []
  | pass (a d : String) : LoopTrace m h [Ev.validate a m true d]
  | fail (a d : String) (rest : List Ev) : LoopTrace m h rest →
      LoopTrace m h (Ev.validate a m false d
        :: Ev.oracleRepair (fix_verilog_syntax_prompt a d h) :: rest)

/-- Is this event the header-extraction oracle request? -/
def isHeaderEv : Ev → Bool
  | .oracleHeader _ => true
  | _ => false

/-- Is this event the bug-hypothesis oracle request? -/
def isBugsEv : Ev → Bool
  | .oracleBugs _ => true
  | _ => false

/-- Concrete oracle fixture: always answers with three lines. -/
def oracleA : String → String := fun _ => "a\nb\nc"

/-- Concrete oracle fixture: answers the header-extraction request for
mutant `"M"` with the empty string, and every other request with three
lines. -/
def oracleEmptyHeader : String → String := fun p =>
  if p = extract_header_prompt "M" then "" else "a\nb\nc"

/-- Concrete compiler fixture: every invocation launches and exits `0`. -/
def compilerPass : String → String → String → CompileOutcome :=
  fun _ _ _ => .launched 0 ""

/-- Concrete compiler fixture: every invocation launches and exits `1`
with diagnostic `"boom"`. -/
def compilerFail : String → String → String → CompileOutcome :=
  fun _ _ _ => .launched 1 "boom"

/-- Concrete compiler fixture: the process never launches. -/
def compilerCrash : String → String → String → CompileOutcome :=
  fun _ _ _ => .launchFailure

/-- Concrete input mapping holding a specification, a mutant, and an
unrelated extra entry. -/
def filesA : String → Option String := fun k =>
  if k = "specification.md" then some "S"
  else if k = "mutant_0.v" then some "M"
  else if k = "extra.txt" then some "X"
  else none

/-- `filesA` without the specification entry. -/
def filesNoSpec : String → Option String := fun k =>
  if k = "mutant_0.v" then some "M" else none

/-- `filesA` without the mutant entry. -/
def filesNoMutant : String → Option String := fun k =>
  if k = "specification.md" then some "S" else none

/-- `filesA` with a different unrelated extra entry. -/
def filesB : String → Option String := fun k =>
  if k = "specification.md" then some "S"
  else if k = "mutant_0.v" then some "M"
  else if k = "other.txt" then some "Y"
  else none

end Agent

namespace Agent

theorem containsStr_refl_right (pat q : String) : ContainsStr (pat ++ q) pat :=
  ⟨"", q, by simp⟩

theorem containsStr_refl_left (p pat : String) : ContainsStr (p ++ pat) pat :=
  ⟨p, "", by simp⟩

theorem containsStr_cons_left (s t pat : String) :
    ContainsStr t pat → ContainsStr (s ++ t) pat := by
  rintro ⟨p, q, rfl⟩
  exact ⟨s ++ p, q, by rw [String.append_assoc]⟩

theorem containsStr_append_head (s t pat : String) :
    ContainsStr s pat → ContainsStr (s ++ t) pat := by
  rintro ⟨p, q, rfl⟩
  exact ⟨p, q ++ t, by rw [String.append_assoc, String.append_assoc]⟩

theorem hasSubstrList_base (pat suf : List Char) :
    hasSubstrList pat (pat ++ suf) = true := by
  match pat with
  | [] =>
    cases suf with
    | nil => rfl
    | cons c r => simp [hasSubstrList, List.isPrefixOf]
  | p :: ps =>
    show hasSubstrList (p :: ps) (p :: (ps ++ suf)) = true
    have hpref : (p :: ps).isPrefixOf (p :: ps ++ suf) = true :=
      List.isPrefixOf_iff_prefix.mpr (List.prefix_append (p :: ps) suf)
    simp [hasSubstrList, hpref]

theorem hasSubstrList_cons (pat : List Char) (c : Char) (l : List Char) :
    hasSubstrList pat l = true → hasSubstrList pat (c :: l) = true := by
  intro hl
  simp [hasSubstrList, hl]

theorem hasSubstrList_mid (pat pre suf : List Char) :
    hasSubstrList pat (pre ++ (pat ++ suf)) = true := by
  induction pre with
  | nil => simpa using hasSubstrList_base pat suf
  | cons c pre ih => exact hasSubstrList_cons pat c _ ih

theorem hasSubstr_of_containsStr (s pat : String) :
    ContainsStr s pat → hasSubstr s pat = true := by
  rintro ⟨p, q, rfl⟩
  show hasSubstrList pat.data (p ++ (pat ++ q)).data = true
  rw [String.data_append, String.data_append]
  exact hasSubstrList_mid pat.data p.data q.data

theorem not_containsStr_of_hasSubstr_false (s pat : String)
    (h : hasSubstr s pat = false) : ¬ ContainsStr s pat := by
  intro hc
  rw [hasSubstr_of_containsStr s pat hc] at h
  exact absurd h (by simp)

theorem containsStr_of_hasSubstrList :
    ∀ (l pat : List Char), hasSubstrList pat l = true →
      ∃ pre suf, l = pre ++ (pat ++ suf) := by
  intro l
  induction l with
  | nil =>
    intro pat hp
    have : pat = [] := List.isEmpty_iff.mp hp
    subst this
    exact ⟨[], [], rfl⟩
  | cons c rest ih =>
    intro pat hp
    rcases Bool.or_eq_true_iff.mp hp with hpre | hrest
    · obtain ⟨suf, hsuf⟩ := List.isPrefixOf_iff_prefix.mp hpre
      exact ⟨[], suf, hsuf.symm⟩
    · obtain ⟨pre, suf, hps⟩ := ih pat hrest
      exact ⟨c :: pre, suf, by rw [List.cons_append, hps]⟩

theorem containsStr_of_hasSubstr (s pat : String) (h : hasSubstr s pat = true) :
    ContainsStr s pat := by
  obtain ⟨pre, suf, hd⟩ := containsStr_of_hasSubstrList s.data pat.data h
  refine ⟨List.asString pre, List.asString suf, ?_⟩
  apply String.ext
  rw [String.data_append, String.data_append]
  rw [show (List.asString pre).data = pre from List.toList_asString pre]
  rw [show (List.asString suf).data = suf from List.toList_asString suf]
  exact hd

/-- If `check_verilog_syntax` reports success, the diagnostic component is
the empty string and the compiler exited with code `0`. -/
theorem check_ok_true (compiler : String → String → String → CompileOutcome)
    (v m t e : String) (h : check_verilog_syntax compiler v m t = .ok (true, e)) :
    e = "" ∧ ∃ st, compiler v m t = .launched 0 st := by
  unfold check_verilog_syntax at h
  cases hc : compiler v m t with
  | launched k st =>
    rw [hc] at h
    by_cases hk : k = 0
    · subst hk
      simp at h
      exact ⟨h.symm, st, rfl⟩
    · simp [hk] at h
  | launchFailure => rw [hc] at h; exact absurd h (by simp)

/-- The repair loop's event list always has the `LoopTrace` shape. -/
theorem repair_loop_loopTrace (oracle : String → String)
    (compiler : String → String → String → CompileOutcome)
    (m h : String) (fuel : Nat) (cur : String) :
    LoopTrace m h (repair_loop oracle compiler m h fuel cur).2 := by
  induction fuel generalizing cur with
  | zero => exact LoopTrace.nil
  | succ n ih =>
    show LoopTrace m h (repair_loop oracle compiler m h (n + 1) cur).2
    rw [repair_loop]
    cases hc : check_verilog_syntax compiler cur m "tb" with
    | error u => exact LoopTrace.nil
    | ok pr =>
      obtain ⟨isGood, err⟩ := pr
      cases isGood with
      | true => exact LoopTrace.pass cur err
      | false =>
        exact LoopTrace.fail cur err _
          (ih ( fix_verilog_syntax oracle cur err h))

/-- Every event in a loop trace is a repair request or a validation. -/
theorem loopTrace_kinds (m h : String) (t : List Ev) (ht : LoopTrace m h t) :
    ∀ e ∈ t, e.kind = EvKind.repair ∨ e.kind = EvKind.validate := by
  induction ht with
  | nil => intro e he; exact absurd he (List.not_mem_nil e)
  | pass a d =>
    intro e he
    rw [List.mem_singleton] at he
    subst he
    exact Or.inr rfl
  | fail a d rest hrest ih =>
    intro e he
    rcases List.mem_cons.mp he with rfl | he2
    · exact Or.inr rfl
    · rcases List.mem_cons.mp he2 with rfl | he3
      · exact Or.inl rfl
      · exact ih e he3

/-- Every repair prompt in a loop trace was built with the loop's module
header (and hence contains it verbatim). -/
theorem loopTrace_repair_prompts (m h : String) (t : List Ev) (ht : LoopTrace m h t) :
    ∀ p, Ev.oracleRepair p ∈ t → ∃ a d, p = fix_verilog_syntax_prompt a d h := by
  induction ht with
  | nil => intro p hp; exact absurd hp (List.not_mem_nil _)
  | pass a d =>
    intro p hp
    rw [List.mem_singleton] at hp
    exact Ev.noConfusion hp
  | fail a d rest hrest ih =>
    intro p hp
    rcases List.mem_cons.mp hp with h1 | hp2
    · exact Ev.noConfusion h1
    · rcases List.mem_cons.mp hp2 with h1 | hp3
      · injection h1 with hh
        exact ⟨a, d, hh⟩
      · exact ih p hp3

/-- In a loop trace, every failing validation event is immediately followed
by the repair request built from that artifact and that diagnostic. -/
theorem loopTrace_fail_followed (m h : String) (t : List Ev) (ht : LoopTrace m h t) :
    ∀ pre a mu d suf, t = pre ++ (Ev.validate a mu false d :: suf) →
      mu = m ∧ ∃ s2, suf = Ev.oracleRepair (fix_verilog_syntax_prompt a d h) :: s2 := by
  induction ht with
  | nil =>
    intro pre a mu d suf heq
    cases pre with
    | nil => exact List.noConfusion heq
    | cons y pre2 => exact List.noConfusion heq
  | pass a0 d0 =>
    intro pre a mu d suf heq
    cases pre with
    | nil =>
      injection heq with h1 h2
      injection h1 with e1 e2 e3 e4
      exact Bool.noConfusion e3
    | cons y pre2 =>
      injection heq with h1 h2
      cases pre2 with
      | nil => exact List.noConfusion h2
      | cons z pre3 => exact List.noConfusion h2
  | fail a0 d0 rest hrest ih =>
    intro pre a mu d suf heq
    cases pre with
    | nil =>
      rw [List.nil_append] at heq
      injection heq with h1 h2
      injection h1 with ha hmu hfl hd
      subst ha
      subst hd
      exact ⟨hmu.symm, rest, h2.symm⟩
    | cons x pre2 =>
      rw [List.cons_append] at heq
      injection heq with h1 h2
      cases pre2 with
      | nil =>
        rw [List.nil_append] at h2
        injection h2 with h3 h4
        exact Ev.noConfusion h3
      | cons y pre3 =>
        rw [List.cons_append] at h2
        injection h2 with h3 h4
        exact ih pre3 a mu d suf h4

/-- `loopTrace_fail_followed`, with a prefix of non-validation events in
front of the loop trace (the three initial oracle requests of a run). -/
theorem loopTrace_fail_followed_front (m h : String) (front t : List Ev)
    (hfront : ∀ e ∈ front, e.kind ≠ EvKind.validate) (ht : LoopTrace m h t) :
    ∀ pre a mu d suf, front ++ t = pre ++ (Ev.validate a mu false d :: suf) →
      mu = m ∧ ∃ s2, suf = Ev.oracleRepair (fix_verilog_syntax_prompt a d h) :: s2 := by
  induction front with
  | nil =>
    intro pre a mu d suf heq
    rw [List.nil_append] at heq
    exact loopTrace_fail_followed m h t ht pre a mu d suf heq
  | cons x front2 ih =>
    intro pre a mu d suf heq
    cases pre with
    | nil =>
      rw [List.cons_append, List.nil_append] at heq
      injection heq with h1 h2
      exact absurd (by rw [h1]; rfl : x.kind = EvKind.validate)
        (hfront x (List.mem_cons_self x front2))
    | cons y pre2 =>
      rw [List.cons_append, List.cons_append] at heq
      injection heq with h1 h2
      exact ih (fun e he => hfront e (List.mem_cons_of_mem x he)) pre2 a mu d suf h2

/-- If the repair loop returns an artifact, that artifact is exactly the
text whose validation succeeded, the validation of the returned artifact
reports `(true, "")`, and the last event of the loop trace is that passing
validation. -/
theorem repair_loop_done_spec (oracle : String → String)
    (compiler : String → String → String → CompileOutcome)
    (m h : String) (fuel : Nat) (cur : String) (a : String)
    (hdone : (repair_loop oracle compiler m h fuel cur).1 = .done a) :
    check_verilog_syntax compiler a m "tb" = .ok (true, "") ∧
      (repair_loop oracle compiler m h fuel cur).2.getLast?
        = some (Ev.validate a m true "") := by
  induction fuel generalizing cur with
  | zero => exact absurd hdone (by simp [repair_loop])
  | succ n ih =>
    rw [repair_loop] at hdone ⊢
    cases hc : check_verilog_syntax compiler cur m "tb" with
    | error u =>
      rw [hc] at hdone
      exact RunResult.noConfusion
        (show RunResult.launchFault = RunResult.done a from hdone)
    | ok pr =>
      obtain ⟨isGood, err⟩ := pr
      rw [hc] at hdone
      cases isGood with
      | true =>
        have hda : RunResult.done cur = RunResult.done a := hdone
        injection hda with hca
        subst hca
        obtain ⟨herr, -⟩ := check_ok_true compiler cur m "tb" err hc
        subst herr
        exact ⟨hc, rfl⟩
      | false =>
        have hdone2 : (repair_loop oracle compiler m h n
            ( fix_verilog_syntax oracle cur err h)).1 = .done a := hdone
        obtain ⟨hcheck, hlast⟩ := ih ( fix_verilog_syntax oracle cur err h) hdone2
        refine ⟨hcheck, ?_⟩
        have hne : (repair_loop oracle compiler m h n
            ( fix_verilog_syntax oracle cur err h)).2 ≠ [] := by
          intro hnil
          rw [hnil] at hlast
          exact Option.noConfusion hlast
        show ([Ev.validate cur m false err,
               Ev.oracleRepair (fix_verilog_syntax_prompt cur err h)]
              ++ (repair_loop oracle compiler m h n
                    ( fix_verilog_syntax oracle cur err h)).2).getLast?
            = some (Ev.validate a m true "")
        rw [List.getLast?_append_of_ne_nil _ hne]
        exact hlast

/-- If every compiler invocation on the mutant launches but exits with a
nonzero code, the repair loop never returns an artifact, for any fuel. -/
theorem repair_loop_never_done (oracle : String → String)
    (compiler : String → String → String → CompileOutcome)
    (m h : String)
    (hfail : ∀ s k st, compiler s m "tb" = .launched k st → k ≠ 0) :
    ∀ fuel cur a, (repair_loop oracle compiler m h fuel cur).1 ≠ .done a := by
  intro fuel
  induction fuel with
  | zero => intro cur a; simp [repair_loop]
  | succ n ih =>
    intro cur a
    rw [repair_loop]
    cases hc : compiler cur m "tb" with
    | launched k st =>
      have hk : k ≠ 0 := hfail cur k st hc
      have : check_verilog_syntax compiler cur m "tb" = .ok (false, st) := by
        unfold check_verilog_syntax
        rw [hc]
        simp [hk]
      rw [this]
      simpa using ih ( fix_verilog_syntax oracle cur st h) a
    | launchFailure =>
      have : check_verilog_syntax compiler cur m "tb" = .error () := by
        unfold check_verilog_syntax
        rw [hc]
      rw [this]
      simp

/-- A compiler-launch failure on the current artifact makes the loop abort
with an uncaught exception and an empty trace. -/
theorem repair_loop_launch_fault (oracle : String → String)
    (compiler : String → String → String → CompileOutcome)
    (m h : String) (fuel : Nat) (cur : String)
    (hc : compiler cur m "tb" = .launchFailure) :
    repair_loop oracle compiler m h (fuel + 1) cur = (.launchFault, []) := by
  rw [repair_loop]
  have : check_verilog_syntax compiler cur m "tb" = .error () := by
    unfold check_verilog_syntax
    rw [hc]
  rw [this]

/-- The repair loop never raises a `KeyError`: its only outcomes are a
returned artifact, a launch fault, or running out of fuel. -/
theorem repair_loop_no_keyError (oracle : String → String)
    (compiler : String → String → String → CompileOutcome)
    (m h : String) :
    ∀ fuel cur k, (repair_loop oracle compiler m h fuel cur).1 ≠ RunResult.keyError k := by
  intro fuel
  induction fuel with
  | zero => intro cur k; simp [repair_loop]
  | succ n ih =>
    intro cur k
    rw [repair_loop]
    cases hc : check_verilog_syntax compiler cur m "tb" with
    | error u =>
      exact fun hh => RunResult.noConfusion
        (show RunResult.launchFault = RunResult.keyError k from hh)
    | ok pr =>
      obtain ⟨isGood, err⟩ := pr
      cases isGood with
      | true =>
        exact fun hh => RunResult.noConfusion
          (show RunResult.done cur = RunResult.keyError k from hh)
      | false =>
        exact fun hh => ih ( fix_verilog_syntax oracle cur err h) k hh

/-- Unfolding `generate_testbench` when both input entries are present:
the run is the repair loop seeded with the synthesized artifact, and the
trace is the three pipeline requests followed by the loop trace. -/
theorem generate_testbench_shape (oracle : String → String)
    (compiler : String → String → String → CompileOutcome)
    (fuel : Nat) (files : String → Option String) (fd m0 : String)
    (h1 : files "specification.md" = some fd)
    (h2 : files "mutant_0.v" = some m0) :
    generate_testbench oracle compiler fuel files =
      ((repair_loop oracle compiler m0 (extract_header oracle m0) fuel
          (creating_tb oracle fd (finding_bugs oracle fd) (extract_header oracle m0))).1,
        Ev.oracleBugs (finding_bugs_prompt fd)
        :: Ev.oracleHeader (extract_header_prompt m0)
        :: Ev.oracleSynth
             (creating_tb_prompt fd (finding_bugs oracle fd) (extract_header oracle m0))
        :: (repair_loop oracle compiler m0 (extract_header oracle m0) fuel
              (creating_tb oracle fd (finding_bugs oracle fd) (extract_header oracle m0))).2) := by
  unfold generate_testbench
  rw [h1, h2]

/-- The repair prompt contains the module header it was built with. -/
theorem fix_prompt_contains_header (code err hdr : String) :
    ContainsStr (fix_verilog_syntax_prompt code err hdr) hdr := by
  unfold fix_verilog_syntax_prompt
  exact containsStr_append_head _ _ _ (containsStr_refl_left _ hdr)

/-- The synthesis prompt contains the module header it was built with. -/
theorem creating_tb_prompt_contains_header (fd bugs hdr : String) :
    ContainsStr (creating_tb_prompt fd bugs hdr) hdr := by
  unfold creating_tb_prompt
  exact containsStr_append_head _ _ _ (containsStr_refl_left _ hdr)

/-- The synthesis prompt contains the bug-hypothesis text verbatim. -/
theorem creating_tb_prompt_contains_bugs (fd bugs hdr : String) :
    ContainsStr (creating_tb_prompt fd bugs hdr) bugs := by
  unfold creating_tb_prompt
  exact containsStr_append_head _ _ _ (containsStr_append_head _ _ _
    (containsStr_append_head _ _ _ (containsStr_refl_left _ bugs)))

/-- Claim C4: for every (Artifact, CandidateModule) pair on which the
compiler process launches, the Artifact Validator reports Pass with an
empty diagnostic exactly when the process exits successfully, and on a
nonzero exit it reports Fail with the verbatim captured stderr as the
diagnostic. -/
theorem c4_validator_pass_iff_exit_zero
    (compiler : String → String → String → CompileOutcome)
    (code m0 top stderr : String) (exitCode : Nat)
    (h : compiler code m0 top = .launched exitCode stderr) :
    ( check_verilog_syntax compiler code m0 top = .ok (true, "") ↔ exitCode = 0)
    ∧ (exitCode ≠ 0 →
        check_verilog_syntax compiler code m0 top = .ok (false, stderr)) := by
  unfold check_verilog_syntax
  rw [h]
  by_cases hk : exitCode = 0
  · subst hk; simp
  · simp [hk]

/-- Witness for C4 at a concrete always-failing compiler. -/
theorem c4_witness :
    ( check_verilog_syntax compilerFail "t" "m" "tb" = .ok (true, "") ↔ 1 = 0)
    ∧ check_verilog_syntax compilerFail "t" "m" "tb" = .ok (false, "boom") :=
  ⟨(c4_validator_pass_iff_exit_zero compilerFail "t" "m" "tb" "boom" 1 rfl).1,
   (c4_validator_pass_iff_exit_zero compilerFail "t" "m" "tb" "boom" 1 rfl).2
     (by decide)⟩

/-- Claim C6: the Header Extractor, Testbench Synthesizer and Repair Step
each return the oracle response with exactly its first line and its last
line removed and the remaining lines rejoined with newlines. -/
theorem c6_envelope_stripping (oracle : String → String)
    (m0 fd bugs hdr code err r : String) :
    extract_header oracle m0 = envelopeStrip (oracle (extract_header_prompt m0))
    ∧ creating_tb oracle fd bugs hdr
        = envelopeStrip (oracle (creating_tb_prompt fd bugs hdr))
    ∧ fix_verilog_syntax oracle code err hdr
        = envelopeStrip (oracle (fix_verilog_syntax_prompt code err hdr))
    ∧ envelopeStrip r = String.intercalate "\n" (((pySplitlines r).drop 1).dropLast)
    ∧ envelopeStrip "first\nmiddle\nlast" = "middle" :=
  ⟨rfl, rfl, rfl, rfl, by decide⟩

/-- Claim C7: a compiler-launch failure is not reported as a
Fail-with-diagnostic result; it escapes the validator as an uncaught
exception and aborts the loop as an unrecoverable fault. -/
theorem c7_launch_failure_distinct (oracle : String → String)
    (compiler : String → String → String → CompileOutcome)
    (m0 hdr cur : String) (fuel : Nat)
    (hc : compiler cur m0 "tb" = .launchFailure) :
    check_verilog_syntax compiler cur m0 "tb" = .error ()
    ∧ (∀ b d, check_verilog_syntax compiler cur m0 "tb" ≠ .ok (b, d))
    ∧ repair_loop oracle compiler m0 hdr (fuel + 1) cur = (.launchFault, []) := by
  have h1 : check_verilog_syntax compiler cur m0 "tb" = .error () := by
    unfold check_verilog_syntax
    rw [hc]
  refine ⟨h1, ?_, repair_loop_launch_fault oracle compiler m0 hdr fuel cur hc⟩
  intro b d hbd
  rw [h1] at hbd
  exact Except.noConfusion hbd

/-- Witness for C7 at a concrete crashing compiler. -/
theorem c7_witness :
    check_verilog_syntax compilerCrash "cur" "m" "tb" = .error ()
    ∧ check_verilog_syntax compilerCrash "cur" "m" "tb" ≠ .ok (false, "d")
    ∧ repair_loop oracleA compilerCrash "m" "h" 1 "cur" = (.launchFault, []) :=
  ⟨(c7_launch_failure_distinct oracleA compilerCrash "m" "h" "cur" 0 rfl).1,
   (c7_launch_failure_distinct oracleA compilerCrash "m" "h" "cur" 0 rfl).2.1 false "d",
   (c7_launch_failure_distinct oracleA compilerCrash "m" "h" "cur" 0 rfl).2.2⟩

/-- Claim C8: the Bug Hypothesis Generator returns the raw oracle response
with no stripping, and that exact text is interpolated into the Testbench
Synthesizer's prompt. -/
theorem c8_raw_bug_hypotheses (oracle : String → String) (fd hdr : String) :
    finding_bugs oracle fd = oracle (finding_bugs_prompt fd)
    ∧ ContainsStr (creating_tb_prompt fd (finding_bugs oracle fd) hdr)
        (finding_bugs oracle fd) :=
  ⟨rfl, creating_tb_prompt_contains_bugs fd (finding_bugs oracle fd) hdr⟩

/-- Claim C1 counterexample: in a concrete run the bug-hypothesis request
(kind at index 0) is issued strictly before the header-extraction request
(kind at index 1), refuting the claimed Header-Extractor-first order. -/
theorem c1_counterexample :
    (generate_testbench oracleA compilerPass 1 filesA).2.map Ev.kind
      = [EvKind.bugs, EvKind.header, EvKind.synth, EvKind.validate] := by
  rfl

/-- Claim C3 counterexample: with an oracle whose answer to the
header-extraction request is the empty string, the run does not fault: it
proceeds with an empty ModuleSignature and returns an artifact. -/
theorem c3_counterexample :
    extract_header oracleEmptyHeader "M" = ""
    ∧ (generate_testbench oracleEmptyHeader compilerPass 1 filesA).1
        = RunResult.done "b" := by
  exact ⟨rfl, rfl⟩

/-- Claim C9 counterexample: a concrete oracle response makes the Testbench
Synthesizer produce the artifact "b", which contains no module declaration
at all, no success-marker literal and no termination call; the Repair Step
produces the same artifact from the same oracle. -/
theorem c9_counterexample :
    creating_tb oracleA "S" "B" "H" = "b"
    ∧ ¬ ContainsStr (creating_tb oracleA "S" "B" "H") "module"
    ∧ ¬ ContainsStr (creating_tb oracleA "S" "B" "H") "TESTS PASSED"
    ∧ ¬ ContainsStr (creating_tb oracleA "S" "B" "H") "$finish"
    ∧ fix_verilog_syntax oracleA "X" "E" "H" = "b" := by
  have hart : creating_tb oracleA "S" "B" "H" = "b" := rfl
  refine ⟨hart, ?_, ?_, ?_, rfl⟩
  · rw [hart]
    exact not_containsStr_of_hasSubstr_false _ _ (by decide)
  · rw [hart]
    exact not_containsStr_of_hasSubstr_false _ _ (by decide)
  · rw [hart]
    exact not_containsStr_of_hasSubstr_false _ _ (by decide)

/-- Claim C1 (amended): in every run with both input entries present, the
pipeline order of oracle requests is Bug Hypothesis Generator first, then
Header Extractor, then Testbench Synthesizer; all later events belong to
the validate/repair loop. -/
theorem c1_bugs_then_header_then_synth (oracle : String → String)
    (compiler : String → String → String → CompileOutcome)
    (fuel : Nat) (files : String → Option String) (fd m0 : String)
    (h1 : files "specification.md" = some fd)
    (h2 : files "mutant_0.v" = some m0) :
    ((generate_testbench oracle compiler fuel files).2.map Ev.kind).take 3
      = [EvKind.bugs, EvKind.header, EvKind.synth]
    ∧ ∀ k ∈ ((generate_testbench oracle compiler fuel files).2.map Ev.kind).drop 3,
        k = EvKind.repair ∨ k = EvKind.validate := by
  rw [generate_testbench_shape oracle compiler fuel files fd m0 h1 h2]
  refine ⟨rfl, ?_⟩
  intro k hk
  simp only [List.map_cons, List.drop_succ_cons, List.drop_zero] at hk
  rw [List.mem_map] at hk
  obtain ⟨e, he, rfl⟩ := hk
  exact loopTrace_kinds m0 (extract_header oracle m0) _
    (repair_loop_loopTrace oracle compiler m0 (extract_header oracle m0) fuel _) e he

/-- Witness for the amended C1 at a concrete run. -/
theorem c1_witness :
    ((generate_testbench oracleA compilerPass 1 filesA).2.map Ev.kind).take 3
      = [EvKind.bugs, EvKind.header, EvKind.synth] :=
  (c1_bugs_then_header_then_synth oracleA compilerPass 1 filesA "S" "M" rfl rfl).1

/-- Claim C3 (amended): if the oracle answers the header-extraction request
with the empty string, the run does not fault: the ModuleSignature is the
empty string, the synthesis request is still issued with that empty
signature interpolated, and no lookup fault is raised. -/
theorem c3_empty_header_continues (oracle : String → String)
    (compiler : String → String → String → CompileOutcome)
    (fuel : Nat) (files : String → Option String) (fd m0 : String)
    (h1 : files "specification.md" = some fd)
    (h2 : files "mutant_0.v" = some m0)
    (hor : oracle (extract_header_prompt m0) = "") :
    extract_header oracle m0 = ""
    ∧ (generate_testbench oracle compiler fuel files).2.take 3
        = [Ev.oracleBugs (finding_bugs_prompt fd),
           Ev.oracleHeader (extract_header_prompt m0),
           Ev.oracleSynth (creating_tb_prompt fd (finding_bugs oracle fd) "")]
    ∧ ∀ k, (generate_testbench oracle compiler fuel files).1 ≠ RunResult.keyError k := by
  have hext : extract_header oracle m0 = "" := by
    unfold extract_header
    rw [hor]
    rfl
  refine ⟨hext, ?_, ?_⟩
  · rw [generate_testbench_shape oracle compiler fuel files fd m0 h1 h2, hext]
    rfl
  · rw [generate_testbench_shape oracle compiler fuel files fd m0 h1 h2]
    intro k
    exact repair_loop_no_keyError oracle compiler m0 (extract_header oracle m0) fuel _ k

/-- Witness for the amended C3 at a concrete run. -/
theorem c3_witness :
    extract_header oracleEmptyHeader "M" = ""
    ∧ (generate_testbench oracleEmptyHeader compilerPass 1 filesA).2.take 3
        = [Ev.oracleBugs (finding_bugs_prompt "S"),
           Ev.oracleHeader (extract_header_prompt "M"),
           Ev.oracleSynth
             (creating_tb_prompt "S" (finding_bugs oracleEmptyHeader "S") "")] :=
  ⟨(c3_empty_header_continues oracleEmptyHeader compilerPass 1 filesA "S" "M"
      rfl rfl rfl).1,
   (c3_empty_header_continues oracleEmptyHeader compilerPass 1 filesA "S" "M"
      rfl rfl rfl).2.1⟩

/-- Claim C9 (amended): the single-`tb`-module requirement, the
success-marker literal and the termination call are stated as instructions
inside the synthesis and repair prompts, but the produced Artifact text is
not checked against them (and, per the counterexample, need not contain
them). -/
theorem c9_prompts_request_contract (fd bugs hdr code err : String) :
    ContainsStr (creating_tb_prompt fd bugs hdr) "The testbench module name is tb. "
    ∧ ContainsStr (creating_tb_prompt fd bugs hdr) "$display(\"TESTS PASSED\")"
    ∧ ContainsStr (creating_tb_prompt fd bugs hdr) "$finish"
    ∧ ContainsStr (fix_verilog_syntax_prompt code err hdr)
        "The testbench module name is tb. "
    ∧ ContainsStr (fix_verilog_syntax_prompt code err hdr) "$display(\"TESTS PASSED\")"
    ∧ ContainsStr (fix_verilog_syntax_prompt code err hdr) "$finish" := by
  refine ⟨?_, ?_, ?_, ?_, ?_, ?_⟩
  · unfold creating_tb_prompt
    exact containsStr_append_head _ _ _ (containsStr_append_head _ _ _
      (containsStr_cons_left _ _ _ (containsStr_of_hasSubstr _ _ (by decide))))
  · unfold creating_tb_prompt
    exact containsStr_cons_left _ _ _ (containsStr_of_hasSubstr _ _ (by decide))
  · unfold creating_tb_prompt
    exact containsStr_cons_left _ _ _ (containsStr_of_hasSubstr _ _ (by decide))
  · unfold fix_verilog_syntax_prompt
    exact containsStr_append_head _ _ _ (containsStr_append_head _ _ _
      (containsStr_cons_left _ _ _ (containsStr_of_hasSubstr _ _ (by decide))))
  · unfold fix_verilog_syntax_prompt
    exact containsStr_cons_left _ _ _ (containsStr_of_hasSubstr _ _ (by decide))
  · unfold fix_verilog_syntax_prompt
    exact containsStr_cons_left _ _ _ (containsStr_of_hasSubstr _ _ (by decide))

theorem isBugsEv_iff_kind (e : Ev) : isBugsEv e = true ↔ e.kind = EvKind.bugs := by
  cases e <;> simp [isBugsEv, Ev.kind]

theorem isHeaderEv_iff_kind (e : Ev) : isHeaderEv e = true ↔ e.kind = EvKind.header := by
  cases e <;> simp [isHeaderEv, Ev.kind]

/-- Claim C2: if the run returns an Artifact, it is exactly the text whose
(most recent) validation reported Pass; every failing validation is
immediately followed by a repair request built from that artifact and its
diagnostic; and, the loop being uncapped, a run whose compiler never exits
zero on this mutant never returns an artifact. -/
theorem c2_returns_passing_artifact (oracle : String → String)
    (compiler : String → String → String → CompileOutcome)
    (fuel : Nat) (files : String → Option String) (fd m0 : String)
    (h1 : files "specification.md" = some fd)
    (h2 : files "mutant_0.v" = some m0) :
    (∀ a, (generate_testbench oracle compiler fuel files).1 = RunResult.done a →
        check_verilog_syntax compiler a m0 "tb" = .ok (true, "")
        ∧ (generate_testbench oracle compiler fuel files).2.getLast?
            = some (Ev.validate a m0 true ""))
    ∧ (∀ pre a mu d suf,
        (generate_testbench oracle compiler fuel files).2
          = pre ++ (Ev.validate a mu false d :: suf) →
        mu = m0 ∧ ∃ s2, suf = Ev.oracleRepair
            (fix_verilog_syntax_prompt a d (extract_header oracle m0)) :: s2)
    ∧ ((∀ s k st, compiler s m0 "tb" = .launched k st → k ≠ 0) →
        ∀ a, (generate_testbench oracle compiler fuel files).1
            ≠ RunResult.done a) := by
  rw [generate_testbench_shape oracle compiler fuel files fd m0 h1 h2]
  refine ⟨?_, ?_, ?_⟩
  · intro a ha
    obtain ⟨hcheck, hlast⟩ := repair_loop_done_spec oracle compiler m0
      (extract_header oracle m0) fuel
      (creating_tb oracle fd (finding_bugs oracle fd) (extract_header oracle m0)) a ha
    refine ⟨hcheck, ?_⟩
    have hne : (repair_loop oracle compiler m0 (extract_header oracle m0) fuel
        (creating_tb oracle fd (finding_bugs oracle fd)
          (extract_header oracle m0))).2 ≠ [] := by
      intro hnil
      rw [hnil] at hlast
      exact Option.noConfusion hlast
    show ([Ev.oracleBugs (finding_bugs_prompt fd),
           Ev.oracleHeader (extract_header_prompt m0),
           Ev.oracleSynth (creating_tb_prompt fd (finding_bugs oracle fd)
             (extract_header oracle m0))]
          ++ (repair_loop oracle compiler m0 (extract_header oracle m0) fuel
               (creating_tb oracle fd (finding_bugs oracle fd)
                 (extract_header oracle m0))).2).getLast?
        = some (Ev.validate a m0 true "")
    rw [List.getLast?_append_of_ne_nil _ hne]
    exact hlast
  · intro pre a mu d suf heq
    refine loopTrace_fail_followed_front m0 (extract_header oracle m0)
      [Ev.oracleBugs (finding_bugs_prompt fd),
       Ev.oracleHeader (extract_header_prompt m0),
       Ev.oracleSynth (creating_tb_prompt fd (finding_bugs oracle fd)
         (extract_header oracle m0))]
      (repair_loop oracle compiler m0 (extract_header oracle m0) fuel
        (creating_tb oracle fd (finding_bugs oracle fd) (extract_header oracle m0))).2
      ?_ (repair_loop_loopTrace oracle compiler m0 (extract_header oracle m0) fuel _)
      pre a mu d suf heq
    intro e he
    rcases List.mem_cons.mp he with rfl | he2
    · exact fun hh => EvKind.noConfusion hh
    · rcases List.mem_cons.mp he2 with rfl | he3
      · exact fun hh => EvKind.noConfusion hh
      · rw [List.mem_singleton] at he3
        subst he3
        exact fun hh => EvKind.noConfusion hh
  · intro hfail a
    exact repair_loop_never_done oracle compiler m0 (extract_header oracle m0)
      hfail fuel _ a

/-- Witness for C2: the concrete run returns the artifact "b", whose
validation passed and whose passing validation is the last event. -/
theorem c2_witness :
    check_verilog_syntax compilerPass "b" "M" "tb" = .ok (true, "")
    ∧ (generate_testbench oracleA compilerPass 1 filesA).2.getLast?
        = some (Ev.validate "b" "M" true "") :=
  (c2_returns_passing_artifact oracleA compilerPass 1 filesA "S" "M" rfl rfl).1
    "b" rfl

/-- Claim C5: the bug-hypothesis and header-extraction oracle requests each
occur exactly once per run, before the synthesis request; the synthesis
prompt is unique and contains the ModuleSignature verbatim; and every
repair prompt of the run contains that identical ModuleSignature text. -/
theorem c5_signature_computed_once (oracle : String → String)
    (compiler : String → String → String → CompileOutcome)
    (fuel : Nat) (files : String → Option String) (fd m0 : String)
    (h1 : files "specification.md" = some fd)
    (h2 : files "mutant_0.v" = some m0) :
    (generate_testbench oracle compiler fuel files).2.countP isBugsEv = 1
    ∧ (generate_testbench oracle compiler fuel files).2.countP isHeaderEv = 1
    ∧ ((generate_testbench oracle compiler fuel files).2.map Ev.kind).take 3
        = [EvKind.bugs, EvKind.header, EvKind.synth]
    ∧ (∀ p, Ev.oracleSynth p ∈ (generate_testbench oracle compiler fuel files).2 →
        p = creating_tb_prompt fd (finding_bugs oracle fd) (extract_header oracle m0))
    ∧ ContainsStr
        (creating_tb_prompt fd (finding_bugs oracle fd) (extract_header oracle m0))
        (extract_header oracle m0)
    ∧ (∀ p, Ev.oracleRepair p ∈ (generate_testbench oracle compiler fuel files).2 →
        ContainsStr p (extract_header oracle m0)) := by
  rw [generate_testbench_shape oracle compiler fuel files fd m0 h1 h2]
  have hkinds := loopTrace_kinds m0 (extract_header oracle m0) _
    (repair_loop_loopTrace oracle compiler m0 (extract_header oracle m0) fuel
      (creating_tb oracle fd (finding_bugs oracle fd) (extract_header oracle m0)))
  have hloopBugs : (repair_loop oracle compiler m0 (extract_header oracle m0) fuel
      (creating_tb oracle fd (finding_bugs oracle fd)
        (extract_header oracle m0))).2.countP isBugsEv = 0 := by
    rw [List.countP_eq_zero]
    intro e he hb
    rcases hkinds e he with hk | hk <;>
      rw [(isBugsEv_iff_kind e).mp hb] at hk <;> exact EvKind.noConfusion hk
  have hloopHeader : (repair_loop oracle compiler m0 (extract_header oracle m0) fuel
      (creating_tb oracle fd (finding_bugs oracle fd)
        (extract_header oracle m0))).2.countP isHeaderEv = 0 := by
    rw [List.countP_eq_zero]
    intro e he hb
    rcases hkinds e he with hk | hk <;>
      rw [(isHeaderEv_iff_kind e).mp hb] at hk <;> exact EvKind.noConfusion hk
  refine ⟨?_, ?_, rfl, ?_, creating_tb_prompt_contains_header fd
    (finding_bugs oracle fd) (extract_header oracle m0), ?_⟩
  · rw [List.countP_cons_of_pos isBugsEv _ (by rfl),
      List.countP_cons_of_neg isBugsEv _ (by simp [isBugsEv]),
      List.countP_cons_of_neg isBugsEv _ (by simp [isBugsEv]), hloopBugs]
  · rw [List.countP_cons_of_neg isHeaderEv _ (by simp [isHeaderEv]),
      List.countP_cons_of_pos isHeaderEv _ (by rfl),
      List.countP_cons_of_neg isHeaderEv _ (by simp [isHeaderEv]), hloopHeader]
  · intro p hp
    rcases List.mem_cons.mp hp with hc | hp2
    · exact Ev.noConfusion hc
    · rcases List.mem_cons.mp hp2 with hc | hp3
      · exact Ev.noConfusion hc
      · rcases List.mem_cons.mp hp3 with hc | hp4
        · injection hc
        · rcases hkinds _ hp4 with hk | hk <;> exact EvKind.noConfusion hk
  · intro p hp
    rcases List.mem_cons.mp hp with hc | hp2
    · exact Ev.noConfusion hc
    · rcases List.mem_cons.mp hp2 with hc | hp3
      · exact Ev.noConfusion hc
      · rcases List.mem_cons.mp hp3 with hc | hp4
        · exact Ev.noConfusion hc
        · obtain ⟨a, d, rfl⟩ := loopTrace_repair_prompts m0 (extract_header oracle m0)
            _ (repair_loop_loopTrace oracle compiler m0 (extract_header oracle m0)
              fuel _) p hp4
          exact fix_prompt_contains_header a d (extract_header oracle m0)

/-- Witness for C5 at a concrete run. -/
theorem c5_witness :
    (generate_testbench oracleA compilerPass 1 filesA).2.countP isBugsEv = 1
    ∧ (generate_testbench oracleA compilerPass 1 filesA).2.countP isHeaderEv = 1 :=
  ⟨(c5_signature_computed_once oracleA compilerPass 1 filesA "S" "M" rfl rfl).1,
   (c5_signature_computed_once oracleA compilerPass 1 filesA "S" "M" rfl rfl).2.1⟩

/-- Claim C10: the run reads exactly the 'specification.md' and
'mutant_0.v' entries of its input mapping: a missing specification raises a
lookup error before any oracle request; a missing mutant raises a lookup
error after only the bug-hypothesis request (the one request that does not
depend on it) and before the header request; and two mappings that agree on
those two entries produce identical runs, whatever their other entries. -/
theorem c10_reads_exactly_two_entries (oracle : String → String)
    (compiler : String → String → String → CompileOutcome) (fuel : Nat)
    (files files2 : String → Option String) (fd : String) :
    (files "specification.md" = none →
      generate_testbench oracle compiler fuel files
        = (.keyError "specification.md", []))
    ∧ (files "specification.md" = some fd → files "mutant_0.v" = none →
      generate_testbench oracle compiler fuel files
        = (.keyError "mutant_0.v", [Ev.oracleBugs (finding_bugs_prompt fd)]))
    ∧ (files2 "specification.md" = files "specification.md" →
       files2 "mutant_0.v" = files "mutant_0.v" →
       generate_testbench oracle compiler fuel files2
         = generate_testbench oracle compiler fuel files) := by
  refine ⟨?_, ?_, ?_⟩
  · intro hn
    unfold generate_testbench
    rw [hn]
  · intro hs hn
    unfold generate_testbench
    rw [hs, hn]
  · intro ha hb
    unfold generate_testbench
    rw [ha, hb]

/-- Witness for C10 at concrete mappings. -/
theorem c10_witness :
    generate_testbench oracleA compilerPass 1 filesNoSpec
      = (.keyError "specification.md", [])
    ∧ generate_testbench oracleA compilerPass 1 filesNoMutant
        = (.keyError "mutant_0.v", [Ev.oracleBugs (finding_bugs_prompt "S")])
    ∧ generate_testbench oracleA compilerPass 1 filesB
        = generate_testbench oracleA compilerPass 1 filesA :=
  ⟨(c10_reads_exactly_two_entries oracleA compilerPass 1 filesNoSpec filesA "S").1
      rfl,
   (c10_reads_exactly_two_entries oracleA compilerPass 1 filesNoMutant filesA
      "S").2.1 rfl rfl,
   (c10_reads_exactly_two_entries oracleA compilerPass 1 filesA filesB "S").2.2
      rfl rfl⟩

end Agent
